import Mathlib

/-!
Verification of the ZMK indicator LED driver
(`src/drivers/indicator_led/indicator_led.c`).

The driver owns three GPIO pins (LED output, STAT1 input, STAT2 input).
`update_led_state` reads both STAT pins and writes `1` to the LED iff both
read `1`; read errors are absorbed locally.  `indicator_led_init` checks
readiness, configures the three pins, arms edge interrupts, registers the
two edge callbacks and performs one startup re-evaluation.

We embed the driver shallowly: all results of the platform's GPIO calls
are collected in an environment record `GpioEnv`, and the driver's
observable behaviour is a `DriverState` carrying the LED's electrical
level together with a trace of the platform calls and diagnostics the
driver performed, in order.
-/

/-- Severity levels of the logging sink (`LOG_ERR`, `LOG_INF`, `LOG_DBG`). -/
inductive Severity where
  | error
  | info
  | debug
deriving DecidableEq

/-- The three pins owned by `struct indicator_led_config`. -/
inductive Pin where
  | led
  | stat1
  | stat2
deriving DecidableEq

/-- One observable platform interaction performed by the driver:
a `gpio_is_ready_dt` check (with its answer), a `gpio_pin_configure_dt` or
`gpio_pin_interrupt_configure_dt` call (with the returned status), a
`gpio_init_callback`/`gpio_add_callback` registration, a `gpio_pin_get_dt`
read (with the returned level or negative error), a `gpio_pin_set_dt`
write to the LED (with the level written), or a log message. -/
inductive Event where
  | checkReady (p : Pin) (ok : Bool)
  | configurePin (p : Pin) (ret : Int)
  | interruptConfigure (p : Pin) (ret : Int)
  | initCallback (p : Pin)
  | addCallback (p : Pin)
  | readPin (p : Pin) (ret : Int)
  | writeLed (level : Int)
  | log (sev : Severity)
deriving DecidableEq

/-- Results the platform GPIO layer returns to the driver's calls.
`stat1_level` / `stat2_level` are what `gpio_pin_get_dt` returns for the
two inputs (a logic level `0`/`1`, or a negative errno); `set_ret` is the
status `gpio_pin_set_dt` returns for the LED write, which the driver
ignores. -/
structure GpioEnv where
  led_ready : Bool
  led_configure_ret : Int
  stat1_ready : Bool
  stat1_configure_ret : Int
  stat1_interrupt_ret : Int
  stat2_ready : Bool
  stat2_configure_ret : Int
  stat2_interrupt_ret : Int
  stat1_level : Int
  stat2_level : Int
  set_ret : Int
deriving DecidableEq

/-- Observable driver state: the LED pin's electrical level (`none` before
the pin was ever driven) and the ordered trace of platform interactions. -/
structure DriverState where
  led : Option Int
  trace : List Event
deriving DecidableEq

/-- Zephyr errno code `ENODEV`. -/
def ENODEV : Int := 19

/-- Embedding of `update_led_state`: read STAT1 and STAT2; if either read
returned a negative status, log an error and return without touching the
LED; otherwise compute `led_state = (stat1 == 1 && stat2 == 1) ? 1 : 0`,
write it to the LED (ignoring `gpio_pin_set_dt`'s status) and log the
debug message. -/
def update_led_state (env : GpioEnv) (s : DriverState) : DriverState :=
  let stat1 := env.stat1_level
  let stat2 := env.stat2_level
  let s1 : DriverState :=
    { s with trace := s.trace ++ [Event.readPin Pin.stat1 stat1, Event.readPin Pin.stat2 stat2] }
  if stat1 < 0 ∨ stat2 < 0 then
    { s1 with trace := s1.trace ++ [Event.log Severity.error] }
  else
    let led_state : Int := if stat1 = 1 ∧ stat2 = 1 then 1 else 0
    { led := some led_state,
      trace := s1.trace ++ [Event.writeLed led_state, Event.log Severity.debug] }

/-- Embedding of `struct indicator_led_data`, after `data->config` was set:
the callbacks recover this record by `CONTAINER_OF` and reach the owning
controller's configuration (here: the environment its pins read from). -/
structure indicator_led_data where
  config : GpioEnv

/-- Embedding of `stat1_gpio_callback`: `CONTAINER_OF` recovers the owning
`indicator_led_data` from the `stat1_cb` field (modelled as receiving the
record directly) and calls `update_led_state(data->config)`.  The `port`
and `pins` arguments are ignored, as in the source. -/
def stat1_gpio_callback (_port : Nat) (data : indicator_led_data) (_pins : Nat)
    (s : DriverState) : DriverState :=
  update_led_state data.config s

/-- Embedding of `stat2_gpio_callback`: identical shape, recovering the
owner through the `stat2_cb` field. -/
def stat2_gpio_callback (_port : Nat) (data : indicator_led_data) (_pins : Nat)
    (s : DriverState) : DriverState :=
  update_led_state data.config s

/-- Embedding of `indicator_led_init`.  Mirrors the source order: LED
readiness check, LED output configuration (`GPIO_OUTPUT_INACTIVE` drives
the LED to level `0` on success), STAT1 readiness/input/interrupt
configuration, the same for STAT2, callback registration for both inputs,
one startup `update_led_state`, final info log.  Each failing check logs
an error and returns the corresponding negative code at once. -/
def indicator_led_init (env : GpioEnv) (s : DriverState) : Int × DriverState :=
  let s1 : DriverState := { s with trace := s.trace ++ [Event.checkReady Pin.led env.led_ready] }
  if env.led_ready = false then
    (-ENODEV, { s1 with trace := s1.trace ++ [Event.log Severity.error] })
  else
    let s2 : DriverState :=
      { s1 with trace := s1.trace ++ [Event.configurePin Pin.led env.led_configure_ret] }
    if env.led_configure_ret < 0 then
      (env.led_configure_ret, { s2 with trace := s2.trace ++ [Event.log Severity.error] })
    else
      let s3 : DriverState :=
        { led := some 0,
          trace := s2.trace ++ [Event.checkReady Pin.stat1 env.stat1_ready] }
      if env.stat1_ready = false then
        (-ENODEV, { s3 with trace := s3.trace ++ [Event.log Severity.error] })
      else
        let s4 : DriverState :=
          { s3 with trace := s3.trace ++ [Event.configurePin Pin.stat1 env.stat1_configure_ret] }
        if env.stat1_configure_ret < 0 then
          (env.stat1_configure_ret, { s4 with trace := s4.trace ++ [Event.log Severity.error] })
        else
          let s5 : DriverState :=
            { s4 with
              trace := s4.trace ++ [Event.interruptConfigure Pin.stat1 env.stat1_interrupt_ret] }
          if env.stat1_interrupt_ret < 0 then
            (env.stat1_interrupt_ret, { s5 with trace := s5.trace ++ [Event.log Severity.error] })
          else
            let s6 : DriverState :=
              { s5 with trace := s5.trace ++ [Event.checkReady Pin.stat2 env.stat2_ready] }
            if env.stat2_ready = false then
              (-ENODEV, { s6 with trace := s6.trace ++ [Event.log Severity.error] })
            else
              let s7 : DriverState :=
                { s6 with
                  trace := s6.trace ++ [Event.configurePin Pin.stat2 env.stat2_configure_ret] }
              if env.stat2_configure_ret < 0 then
                (env.stat2_configure_ret,
                  { s7 with trace := s7.trace ++ [Event.log Severity.error] })
              else
                let s8 : DriverState :=
                  { s7 with
                    trace := s7.trace ++
                      [Event.interruptConfigure Pin.stat2 env.stat2_interrupt_ret] }
                if env.stat2_interrupt_ret < 0 then
                  (env.stat2_interrupt_ret,
                    { s8 with trace := s8.trace ++ [Event.log Severity.error] })
                else
                  let s9 : DriverState :=
                    { s8 with
                      trace := s8.trace ++
                        [Event.initCallback Pin.stat1, Event.addCallback Pin.stat1,
                         Event.initCallback Pin.stat2, Event.addCallback Pin.stat2] }
                  let s10 := update_led_state env s9
                  (0, { s10 with trace := s10.trace ++ [Event.log Severity.info] })

/-- The levels written to the LED pin (`gpio_pin_set_dt` calls) recorded
in a trace, in order. -/
def ledWrites : List Event → List Int
  | [] => []
  | Event.writeLed v :: rest => v :: ledWrites rest
  | _ :: rest => ledWrites rest

/-- The events a single `update_led_state` call appends to the trace,
as a function of the environment alone. -/
def update_delta (env : GpioEnv) : List Event :=
  if env.stat1_level < 0 ∨ env.stat2_level < 0 then
    [Event.readPin Pin.stat1 env.stat1_level, Event.readPin Pin.stat2 env.stat2_level,
     Event.log Severity.error]
  else
    [Event.readPin Pin.stat1 env.stat1_level, Event.readPin Pin.stat2 env.stat2_level,
     Event.writeLed (if env.stat1_level = 1 ∧ env.stat2_level = 1 then 1 else 0),
     Event.log Severity.debug]

/-- All fallible initialization steps succeeded: every readiness check
answered `true` and every configure / interrupt-configure call returned a
non-negative status. -/
def init_all_ok (env : GpioEnv) : Prop :=
  env.led_ready = true ∧ 0 ≤ env.led_configure_ret ∧
  env.stat1_ready = true ∧ 0 ≤ env.stat1_configure_ret ∧ 0 ≤ env.stat1_interrupt_ret ∧
  env.stat2_ready = true ∧ 0 ≤ env.stat2_configure_ret ∧ 0 ≤ env.stat2_interrupt_ret

instance (env : GpioEnv) : Decidable (init_all_ok env) := by
  unfold init_all_ok; infer_instance

/-- Following the spec's enumeration of initialization steps: the first
failure code encountered, in the spec's stated order, or `none` when every
step succeeds.  This definition follows the spec's words, to be compared
against `indicator_led_init`. -/
def spec_first_failure (env : GpioEnv) : Option Int :=
  if env.led_ready = false then some (-ENODEV)
  else if env.led_configure_ret < 0 then some env.led_configure_ret
  else if env.stat1_ready = false then some (-ENODEV)
  else if env.stat1_configure_ret < 0 then some env.stat1_configure_ret
  else if env.stat1_interrupt_ret < 0 then some env.stat1_interrupt_ret
  else if env.stat2_ready = false then some (-ENODEV)
  else if env.stat2_configure_ret < 0 then some env.stat2_configure_ret
  else if env.stat2_interrupt_ret < 0 then some env.stat2_interrupt_ret
  else none

/-- The full trace of a successful initialization, in source order. -/
def init_success_trace (env : GpioEnv) : List Event :=
  [Event.checkReady Pin.led true, Event.configurePin Pin.led env.led_configure_ret,
   Event.checkReady Pin.stat1 true, Event.configurePin Pin.stat1 env.stat1_configure_ret,
   Event.interruptConfigure Pin.stat1 env.stat1_interrupt_ret,
   Event.checkReady Pin.stat2 true, Event.configurePin Pin.stat2 env.stat2_configure_ret,
   Event.interruptConfigure Pin.stat2 env.stat2_interrupt_ret,
   Event.initCallback Pin.stat1, Event.addCallback Pin.stat1,
   Event.initCallback Pin.stat2, Event.addCallback Pin.stat2]
  ++ update_delta env ++ [Event.log Severity.info]

/-- LED level after a successful initialization: the startup
re-evaluation leaves the configured inactive level `0` in place on a read
error, and otherwise drives the AND of the two inputs. -/
def init_success_led (env : GpioEnv) : Option Int :=
  if env.stat1_level < 0 ∨ env.stat2_level < 0 then some 0
  else some (if env.stat1_level = 1 ∧ env.stat2_level = 1 then 1 else 0)

lemma ledWrites_append (t₁ t₂ : List Event) :
    ledWrites (t₁ ++ t₂) = ledWrites t₁ ++ ledWrites t₂ := by
  induction t₁ with
  | nil => rfl
  | cons e rest ih => cases e <;> simp [ledWrites, ih]

lemma update_led_state_trace (env : GpioEnv) (s : DriverState) :
    (update_led_state env s).trace = s.trace ++ update_delta env := by
  unfold update_led_state update_delta
  by_cases h : env.stat1_level < 0 ∨ env.stat2_level < 0 <;> simp [h]

lemma update_led_state_led (env : GpioEnv) (s : DriverState) :
    (update_led_state env s).led =
      if env.stat1_level < 0 ∨ env.stat2_level < 0 then s.led
      else some (if env.stat1_level = 1 ∧ env.stat2_level = 1 then 1 else 0) := by
  unfold update_led_state
  by_cases h : env.stat1_level < 0 ∨ env.stat2_level < 0 <;> simp [h]

lemma indicator_led_init_ok (env : GpioEnv) (s : DriverState) (h : init_all_ok env) :
    indicator_led_init env s =
      (0, { led := init_success_led env, trace := s.trace ++ init_success_trace env }) := by
  obtain ⟨h1, h2, h3, h4, h5, h6, h7, h8⟩ := h
  have e1 : ¬ env.led_configure_ret < 0 := by omega
  have e2 : ¬ env.stat1_configure_ret < 0 := by omega
  have e3 : ¬ env.stat1_interrupt_ret < 0 := by omega
  have e4 : ¬ env.stat2_configure_ret < 0 := by omega
  have e5 : ¬ env.stat2_interrupt_ret < 0 := by omega
  unfold indicator_led_init
  rw [h1, h3, h6]
  simp only [if_neg e1, if_neg e2, if_neg e3, if_neg e4, if_neg e5, Bool.true_eq_false,
    if_false]
  unfold update_led_state init_success_led init_success_trace update_delta
  by_cases hr : env.stat1_level < 0 ∨ env.stat2_level < 0 <;> simp [hr, h1, h3, h6]

lemma spec_first_failure_none_ok (env : GpioEnv) (h : spec_first_failure env = none) :
    init_all_ok env := by
  unfold spec_first_failure at h
  by_cases c1 : env.led_ready = false
  · simp [c1] at h
  by_cases c2 : env.led_configure_ret < 0
  · simp [c1, c2] at h
  by_cases c3 : env.stat1_ready = false
  · simp [c1, c2, c3] at h
  by_cases c4 : env.stat1_configure_ret < 0
  · simp [c1, c2, c3, c4] at h
  by_cases c5 : env.stat1_interrupt_ret < 0
  · simp [c1, c2, c3, c4, c5] at h
  by_cases c6 : env.stat2_ready = false
  · simp [c1, c2, c3, c4, c5, c6] at h
  by_cases c7 : env.stat2_configure_ret < 0
  · simp [c1, c2, c3, c4, c5, c6, c7] at h
  by_cases c8 : env.stat2_interrupt_ret < 0
  · simp [c1, c2, c3, c4, c5, c6, c7, c8] at h
  exact ⟨by simpa using c1, by omega, by simpa using c3, by omega, by omega,
    by simpa using c6, by omega, by omega⟩

lemma init_all_ok_first_failure_none (env : GpioEnv) (h : init_all_ok env) :
    spec_first_failure env = none := by
  obtain ⟨h1, h2, h3, h4, h5, h6, h7, h8⟩ := h
  unfold spec_first_failure
  rw [h1, h3, h6]
  simp only [Bool.true_eq_false, if_false, if_neg (by omega : ¬ env.led_configure_ret < 0),
    if_neg (by omega : ¬ env.stat1_configure_ret < 0),
    if_neg (by omega : ¬ env.stat1_interrupt_ret < 0),
    if_neg (by omega : ¬ env.stat2_configure_ret < 0),
    if_neg (by omega : ¬ env.stat2_interrupt_ret < 0)]

lemma spec_first_failure_neg (env : GpioEnv) (e : Int)
    (h : spec_first_failure env = some e) : e < 0 := by
  unfold spec_first_failure at h
  by_cases c1 : env.led_ready = false
  · simp only [if_pos c1, Option.some.injEq] at h; simp [← h, ENODEV]
  rw [if_neg c1] at h
  by_cases c2 : env.led_configure_ret < 0
  · simp only [if_pos c2, Option.some.injEq] at h; omega
  rw [if_neg c2] at h
  by_cases c3 : env.stat1_ready = false
  · simp only [if_pos c3, Option.some.injEq] at h; simp [← h, ENODEV]
  rw [if_neg c3] at h
  by_cases c4 : env.stat1_configure_ret < 0
  · simp only [if_pos c4, Option.some.injEq] at h; omega
  rw [if_neg c4] at h
  by_cases c5 : env.stat1_interrupt_ret < 0
  · simp only [if_pos c5, Option.some.injEq] at h; omega
  rw [if_neg c5] at h
  by_cases c6 : env.stat2_ready = false
  · simp only [if_pos c6, Option.some.injEq] at h; simp [← h, ENODEV]
  rw [if_neg c6] at h
  by_cases c7 : env.stat2_configure_ret < 0
  · simp only [if_pos c7, Option.some.injEq] at h; omega
  rw [if_neg c7] at h
  by_cases c8 : env.stat2_interrupt_ret < 0
  · simp only [if_pos c8, Option.some.injEq] at h; omega
  rw [if_neg c8] at h
  exact absurd h (by simp)

lemma indicator_led_init_fail (env : GpioEnv) (s : DriverState) (e : Int)
    (h : spec_first_failure env = some e) :
    (indicator_led_init env s).1 = e ∧
    ∃ t, (indicator_led_init env s).2.trace = t ++ [Event.log Severity.error] := by
  unfold spec_first_failure at h
  unfold indicator_led_init
  by_cases c1 : env.led_ready = false
  · rw [if_pos c1] at h
    simp only [Option.some.injEq] at h
    subst h
    rw [if_pos c1]
    exact ⟨by simp, ⟨s.trace ++ [Event.checkReady Pin.led env.led_ready], by simp⟩⟩
  rw [if_neg c1] at h
  rw [if_neg c1]
  by_cases c2 : env.led_configure_ret < 0
  · rw [if_pos c2] at h
    simp only [Option.some.injEq] at h
    subst h
    rw [if_pos c2]
    exact ⟨by simp, ⟨s.trace ++ [Event.checkReady Pin.led env.led_ready,
      Event.configurePin Pin.led env.led_configure_ret], by simp⟩⟩
  rw [if_neg c2] at h
  rw [if_neg c2]
  by_cases c3 : env.stat1_ready = false
  · rw [if_pos c3] at h
    simp only [Option.some.injEq] at h
    subst h
    rw [if_pos c3]
    exact ⟨by simp, ⟨s.trace ++ [Event.checkReady Pin.led env.led_ready,
      Event.configurePin Pin.led env.led_configure_ret,
      Event.checkReady Pin.stat1 env.stat1_ready], by simp⟩⟩
  rw [if_neg c3] at h
  rw [if_neg c3]
  by_cases c4 : env.stat1_configure_ret < 0
  · rw [if_pos c4] at h
    simp only [Option.some.injEq] at h
    subst h
    rw [if_pos c4]
    exact ⟨by simp, ⟨s.trace ++ [Event.checkReady Pin.led env.led_ready,
      Event.configurePin Pin.led env.led_configure_ret,
      Event.checkReady Pin.stat1 env.stat1_ready,
      Event.configurePin Pin.stat1 env.stat1_configure_ret], by simp⟩⟩
  rw [if_neg c4] at h
  rw [if_neg c4]
  by_cases c5 : env.stat1_interrupt_ret < 0
  · rw [if_pos c5] at h
    simp only [Option.some.injEq] at h
    subst h
    rw [if_pos c5]
    exact ⟨by simp, ⟨s.trace ++ [Event.checkReady Pin.led env.led_ready,
      Event.configurePin Pin.led env.led_configure_ret,
      Event.checkReady Pin.stat1 env.stat1_ready,
      Event.configurePin Pin.stat1 env.stat1_configure_ret,
      Event.interruptConfigure Pin.stat1 env.stat1_interrupt_ret], by simp⟩⟩
  rw [if_neg c5] at h
  rw [if_neg c5]
  by_cases c6 : env.stat2_ready = false
  · rw [if_pos c6] at h
    simp only [Option.some.injEq] at h
    subst h
    rw [if_pos c6]
    exact ⟨by simp, ⟨s.trace ++ [Event.checkReady Pin.led env.led_ready,
      Event.configurePin Pin.led env.led_configure_ret,
      Event.checkReady Pin.stat1 env.stat1_ready,
      Event.configurePin Pin.stat1 env.stat1_configure_ret,
      Event.interruptConfigure Pin.stat1 env.stat1_interrupt_ret,
      Event.checkReady Pin.stat2 env.stat2_ready], by simp⟩⟩
  rw [if_neg c6] at h
  rw [if_neg c6]
  by_cases c7 : env.stat2_configure_ret < 0
  · rw [if_pos c7] at h
    simp only [Option.some.injEq] at h
    subst h
    rw [if_pos c7]
    exact ⟨by simp, ⟨s.trace ++ [Event.checkReady Pin.led env.led_ready,
      Event.configurePin Pin.led env.led_configure_ret,
      Event.checkReady Pin.stat1 env.stat1_ready,
      Event.configurePin Pin.stat1 env.stat1_configure_ret,
      Event.interruptConfigure Pin.stat1 env.stat1_interrupt_ret,
      Event.checkReady Pin.stat2 env.stat2_ready,
      Event.configurePin Pin.stat2 env.stat2_configure_ret], by simp⟩⟩
  rw [if_neg c7] at h
  rw [if_neg c7]
  by_cases c8 : env.stat2_interrupt_ret < 0
  · rw [if_pos c8] at h
    simp only [Option.some.injEq] at h
    subst h
    rw [if_pos c8]
    exact ⟨by simp, ⟨s.trace ++ [Event.checkReady Pin.led env.led_ready,
      Event.configurePin Pin.led env.led_configure_ret,
      Event.checkReady Pin.stat1 env.stat1_ready,
      Event.configurePin Pin.stat1 env.stat1_configure_ret,
      Event.interruptConfigure Pin.stat1 env.stat1_interrupt_ret,
      Event.checkReady Pin.stat2 env.stat2_ready,
      Event.configurePin Pin.stat2 env.stat2_configure_ret,
      Event.interruptConfigure Pin.stat2 env.stat2_interrupt_ret], by simp⟩⟩
  rw [if_neg c8] at h
  exact absurd h (by simp)

/-- Concrete driver state for witnesses: LED never driven, empty trace. -/
def s0 : DriverState := { led := none, trace := [] }

/-- Concrete environment in which every platform call succeeds and both
STAT inputs read `1`. -/
def env_ok : GpioEnv :=
  { led_ready := true, led_configure_ret := 0,
    stat1_ready := true, stat1_configure_ret := 0, stat1_interrupt_ret := 0,
    stat2_ready := true, stat2_configure_ret := 0, stat2_interrupt_ret := 0,
    stat1_level := 1, stat2_level := 1, set_ret := 0 }

/-- Like `env_ok`, but the STAT1 read fails with `-5` (`-EIO`). -/
def env_read_error : GpioEnv := { env_ok with stat1_level := -5 }

/-- Like `env_ok`, but the LED pin's controller is not ready. -/
def env_led_not_ready : GpioEnv := { env_ok with led_ready := false }

/-- Like `env_ok`, but configuring STAT1 fails with `-22` (`-EINVAL`). -/
def env_stat1_cfg_fail : GpioEnv := { env_ok with stat1_configure_ret := -22 }

/-- Claim C1: when both STAT reads return a non-negative value,
`update_led_state` performs exactly one LED write, whose value is `1`
when both reads equal `1` and `0` otherwise (including positive values
other than `1`). -/
theorem update_writes_once (env : GpioEnv) (s : DriverState)
    (h1 : 0 ≤ env.stat1_level) (h2 : 0 ≤ env.stat2_level) :
    ∃ v : Int,
      ledWrites (update_led_state env s).trace = ledWrites s.trace ++ [v] ∧
      (env.stat1_level = 1 ∧ env.stat2_level = 1 → v = 1) ∧
      (¬(env.stat1_level = 1 ∧ env.stat2_level = 1) → v = 0) := by
  refine ⟨if env.stat1_level = 1 ∧ env.stat2_level = 1 then 1 else 0, ?_, ?_, ?_⟩
  · rw [update_led_state_trace, ledWrites_append]
    congr 1
    unfold update_delta
    rw [if_neg (by omega : ¬(env.stat1_level < 0 ∨ env.stat2_level < 0))]
    simp [ledWrites]
  · intro hc; rw [if_pos hc]
  · intro hc; rw [if_neg hc]

/-- Witness for C1 at `env_ok`. -/
theorem update_writes_once_witness :
    ∃ v : Int,
      ledWrites (update_led_state env_ok s0).trace = ledWrites s0.trace ++ [v] ∧
      (env_ok.stat1_level = 1 ∧ env_ok.stat2_level = 1 → v = 1) ∧
      (¬(env_ok.stat1_level = 1 ∧ env_ok.stat2_level = 1) → v = 0) :=
  update_writes_once env_ok s0 (by decide) (by decide)

/-- Claim C2: when either STAT read returns a negative status,
`update_led_state` performs no LED write (the output keeps its prior
value), emits exactly one error-severity diagnostic, and returns without
propagating the error (its whole effect is the stated trace). -/
theorem update_read_error_no_write (env : GpioEnv) (s : DriverState)
    (h : env.stat1_level < 0 ∨ env.stat2_level < 0) :
    (update_led_state env s).led = s.led ∧
    ledWrites (update_led_state env s).trace = ledWrites s.trace ∧
    (update_led_state env s).trace =
      s.trace ++ [Event.readPin Pin.stat1 env.stat1_level,
        Event.readPin Pin.stat2 env.stat2_level, Event.log Severity.error] := by
  refine ⟨?_, ?_, ?_⟩
  · rw [update_led_state_led, if_pos h]
  · rw [update_led_state_trace, ledWrites_append]
    unfold update_delta
    rw [if_pos h]
    simp [ledWrites]
  · rw [update_led_state_trace]
    unfold update_delta
    rw [if_pos h]

/-- Witness for C2 at `env_read_error`. -/
theorem update_read_error_no_write_witness :
    (update_led_state env_read_error s0).led = s0.led ∧
    ledWrites (update_led_state env_read_error s0).trace = ledWrites s0.trace :=
  ⟨(update_read_error_no_write env_read_error s0 (by decide)).1,
   (update_read_error_no_write env_read_error s0 (by decide)).2.1⟩

/-- Claim C3: when every initialization step succeeds and both STAT pins
read `1`, `indicator_led_init` returns `0` with the LED driven to `1`; the
full trace shows the startup re-evaluation (reads, LED write of `1`) runs
after both callback registrations, with no edge event involved. -/
theorem init_startup_sync (env : GpioEnv) (s : DriverState) (hok : init_all_ok env)
    (hs1 : env.stat1_level = 1) (hs2 : env.stat2_level = 1) :
    (indicator_led_init env s).1 = 0 ∧
    (indicator_led_init env s).2.led = some 1 ∧
    (indicator_led_init env s).2.trace =
      s.trace ++
        [Event.checkReady Pin.led true, Event.configurePin Pin.led env.led_configure_ret,
         Event.checkReady Pin.stat1 true, Event.configurePin Pin.stat1 env.stat1_configure_ret,
         Event.interruptConfigure Pin.stat1 env.stat1_interrupt_ret,
         Event.checkReady Pin.stat2 true, Event.configurePin Pin.stat2 env.stat2_configure_ret,
         Event.interruptConfigure Pin.stat2 env.stat2_interrupt_ret,
         Event.initCallback Pin.stat1, Event.addCallback Pin.stat1,
         Event.initCallback Pin.stat2, Event.addCallback Pin.stat2,
         Event.readPin Pin.stat1 1, Event.readPin Pin.stat2 1,
         Event.writeLed 1, Event.log Severity.debug, Event.log Severity.info] := by
  rw [indicator_led_init_ok env s hok]
  refine ⟨rfl, ?_, ?_⟩
  · simp [init_success_led, hs1, hs2]
  · simp [init_success_trace, update_delta, hs1, hs2]

/-- Witness for C3 at `env_ok`. -/
theorem init_startup_sync_witness :
    (indicator_led_init env_ok s0).1 = 0 ∧ (indicator_led_init env_ok s0).2.led = some 1 :=
  ⟨(init_startup_sync env_ok s0 (by decide) rfl rfl).1,
   (init_startup_sync env_ok s0 (by decide) rfl rfl).2.1⟩

/-- Claim C4: when the LED pin's controller is not ready,
`indicator_led_init` returns `-ENODEV` and its whole effect is the failed
readiness check plus one error log — no configure, interrupt-configure,
callback-registration or LED-write call is made. -/
theorem init_led_not_ready (env : GpioEnv) (s : DriverState) (h : env.led_ready = false) :
    indicator_led_init env s =
      (-ENODEV,
       { s with trace := s.trace ++
           [Event.checkReady Pin.led false, Event.log Severity.error] }) := by
  unfold indicator_led_init
  rw [h]
  simp

/-- Witness for C4 at `env_led_not_ready`. -/
theorem init_led_not_ready_witness :
    indicator_led_init env_led_not_ready s0 =
      (-ENODEV,
       { s0 with trace := s0.trace ++
           [Event.checkReady Pin.led false, Event.log Severity.error] }) :=
  init_led_not_ready env_led_not_ready s0 rfl

/-- Claim C5: whichever configure or interrupt-configure call fails first
(its predecessors having succeeded), `indicator_led_init` returns exactly
that call's negative status and stops right after it: the result trace
ends at the failing call plus one error log, with no subsequent
configuration step. -/
theorem init_propagates_config_failure (env : GpioEnv) (s : DriverState)
    (hl : env.led_ready = true) (hr1 : env.stat1_ready = true) (hr2 : env.stat2_ready = true) :
    (env.led_configure_ret < 0 →
       indicator_led_init env s =
         (env.led_configure_ret,
          { s with trace := s.trace ++
              [Event.checkReady Pin.led true,
               Event.configurePin Pin.led env.led_configure_ret,
               Event.log Severity.error] }))
  ∧ (0 ≤ env.led_configure_ret → env.stat1_configure_ret < 0 →
       indicator_led_init env s =
         (env.stat1_configure_ret,
          { led := some 0,
            trace := s.trace ++
              [Event.checkReady Pin.led true,
               Event.configurePin Pin.led env.led_configure_ret,
               Event.checkReady Pin.stat1 true,
               Event.configurePin Pin.stat1 env.stat1_configure_ret,
               Event.log Severity.error] }))
  ∧ (0 ≤ env.led_configure_ret → 0 ≤ env.stat1_configure_ret →
     env.stat1_interrupt_ret < 0 →
       indicator_led_init env s =
         (env.stat1_interrupt_ret,
          { led := some 0,
            trace := s.trace ++
              [Event.checkReady Pin.led true,
               Event.configurePin Pin.led env.led_configure_ret,
               Event.checkReady Pin.stat1 true,
               Event.configurePin Pin.stat1 env.stat1_configure_ret,
               Event.interruptConfigure Pin.stat1 env.stat1_interrupt_ret,
               Event.log Severity.error] }))
  ∧ (0 ≤ env.led_configure_ret → 0 ≤ env.stat1_configure_ret →
     0 ≤ env.stat1_interrupt_ret → env.stat2_configure_ret < 0 →
       indicator_led_init env s =
         (env.stat2_configure_ret,
          { led := some 0,
            trace := s.trace ++
              [Event.checkReady Pin.led true,
               Event.configurePin Pin.led env.led_configure_ret,
               Event.checkReady Pin.stat1 true,
               Event.configurePin Pin.stat1 env.stat1_configure_ret,
               Event.interruptConfigure Pin.stat1 env.stat1_interrupt_ret,
               Event.checkReady Pin.stat2 true,
               Event.configurePin Pin.stat2 env.stat2_configure_ret,
               Event.log Severity.error] }))
  ∧ (0 ≤ env.led_configure_ret → 0 ≤ env.stat1_configure_ret →
     0 ≤ env.stat1_interrupt_ret → 0 ≤ env.stat2_configure_ret →
     env.stat2_interrupt_ret < 0 →
       indicator_led_init env s =
         (env.stat2_interrupt_ret,
          { led := some 0,
            trace := s.trace ++
              [Event.checkReady Pin.led true,
               Event.configurePin Pin.led env.led_configure_ret,
               Event.checkReady Pin.stat1 true,
               Event.configurePin Pin.stat1 env.stat1_configure_ret,
               Event.interruptConfigure Pin.stat1 env.stat1_interrupt_ret,
               Event.checkReady Pin.stat2 true,
               Event.configurePin Pin.stat2 env.stat2_configure_ret,
               Event.interruptConfigure Pin.stat2 env.stat2_interrupt_ret,
               Event.log Severity.error] })) := by
  refine ⟨?_, ?_, ?_, ?_, ?_⟩
  · intro hc
    unfold indicator_led_init
    rw [hl]
    simp [hc]
  · intro ha hc
    have hna : ¬ env.led_configure_ret < 0 := by omega
    unfold indicator_led_init
    rw [hl, hr1]
    simp [hc, hna]
  · intro ha hb hc
    have hna : ¬ env.led_configure_ret < 0 := by omega
    have hnb : ¬ env.stat1_configure_ret < 0 := by omega
    unfold indicator_led_init
    rw [hl, hr1]
    simp [hc, hna, hnb]
  · intro ha hb hcc hc
    have hna : ¬ env.led_configure_ret < 0 := by omega
    have hnb : ¬ env.stat1_configure_ret < 0 := by omega
    have hnc : ¬ env.stat1_interrupt_ret < 0 := by omega
    unfold indicator_led_init
    rw [hl, hr1, hr2]
    simp [hc, hna, hnb, hnc]
  · intro ha hb hcc hd hc
    have hna : ¬ env.led_configure_ret < 0 := by omega
    have hnb : ¬ env.stat1_configure_ret < 0 := by omega
    have hnc : ¬ env.stat1_interrupt_ret < 0 := by omega
    have hnd : ¬ env.stat2_configure_ret < 0 := by omega
    unfold indicator_led_init
    rw [hl, hr1, hr2]
    simp [hc, hna, hnb, hnc, hnd]

/-- Witness for C5 at `env_stat1_cfg_fail`: the STAT1 configure failure
code `-22` is returned unchanged. -/
theorem init_propagates_config_failure_witness :
    (indicator_led_init env_stat1_cfg_fail s0).1 = -22 := by
  have h := (init_propagates_config_failure env_stat1_cfg_fail s0 rfl rfl rfl).2.1
    (by decide) (by decide)
  rw [h]
  decide

/-- Claim C6: `indicator_led_init` returns `0` exactly when every
fallible step succeeds; on the first failing step (in the spec's order,
captured by `spec_first_failure`) it returns that step's code with the
trace ending in an error log; on full success it performs exactly the
steps of `init_success_trace`, in source order. -/
theorem init_returns_first_failure (env : GpioEnv) (s : DriverState) :
    ((indicator_led_init env s).1 = 0 ↔ spec_first_failure env = none) ∧
    (∀ e : Int, spec_first_failure env = some e →
       (indicator_led_init env s).1 = e ∧
       ∃ t, (indicator_led_init env s).2.trace = t ++ [Event.log Severity.error]) ∧
    (spec_first_failure env = none →
       indicator_led_init env s =
         (0, { led := init_success_led env, trace := s.trace ++ init_success_trace env })) := by
  refine ⟨⟨?_, ?_⟩, ?_, ?_⟩
  · intro h0
    by_contra hne
    obtain ⟨e, he⟩ := Option.ne_none_iff_exists'.mp hne
    have ha := (indicator_led_init_fail env s e he).1
    have hb := spec_first_failure_neg env e he
    omega
  · intro hn
    rw [indicator_led_init_ok env s (spec_first_failure_none_ok env hn)]
  · exact fun e he => indicator_led_init_fail env s e he
  · intro hn
    exact indicator_led_init_ok env s (spec_first_failure_none_ok env hn)

/-- Witness for C6 at `env_ok`. -/
theorem init_returns_first_failure_witness :
    (indicator_led_init env_ok s0).1 = 0 :=
  (init_returns_first_failure env_ok s0).1.mpr (by decide)

/-- Claim C7: `update_led_state` is idempotent for fixed input levels: a
second invocation leaves the LED at the same level, appends exactly the
same diagnostic/read/write events again, and any write it repeats drives
the value the LED already holds — no observable level change. -/
theorem update_idempotent (env : GpioEnv) (s : DriverState) :
    (update_led_state env (update_led_state env s)).led = (update_led_state env s).led ∧
    (update_led_state env (update_led_state env s)).trace =
      (update_led_state env s).trace ++ update_delta env ∧
    (∀ v : Int, Event.writeLed v ∈ update_delta env →
       (update_led_state env s).led = some v) := by
  refine ⟨?_, update_led_state_trace env _, ?_⟩
  · rw [update_led_state_led env (update_led_state env s)]
    by_cases h : env.stat1_level < 0 ∨ env.stat2_level < 0
    · rw [if_pos h]
    · rw [if_neg h, update_led_state_led, if_neg h]
  · intro v hv
    unfold update_delta at hv
    by_cases h : env.stat1_level < 0 ∨ env.stat2_level < 0
    · rw [if_pos h] at hv
      simp at hv
    · rw [if_neg h] at hv
      simp at hv
      rw [update_led_state_led, if_neg h, hv]

/-- Witness for C7 at `env_ok`. -/
theorem update_idempotent_witness :
    (update_led_state env_ok (update_led_state env_ok s0)).led =
      (update_led_state env_ok s0).led :=
  (update_idempotent env_ok s0).1

/-- Claim C8: `update_led_state` never inspects the LED write's return
status — its result is identical for every value `gpio_pin_set_dt`
returns, and after a successful pair of reads its whole effect is the
reads, the write and one debug log (no error diagnostic, nothing
propagated). -/
theorem update_ignores_write_status (env : GpioEnv) (s : DriverState) (r1 r2 : Int)
    (h1 : 0 ≤ env.stat1_level) (h2 : 0 ≤ env.stat2_level) :
    update_led_state { env with set_ret := r1 } s =
      update_led_state { env with set_ret := r2 } s ∧
    (update_led_state { env with set_ret := r1 } s).trace =
      s.trace ++
        [Event.readPin Pin.stat1 env.stat1_level, Event.readPin Pin.stat2 env.stat2_level,
         Event.writeLed (if env.stat1_level = 1 ∧ env.stat2_level = 1 then 1 else 0),
         Event.log Severity.debug] := by
  refine ⟨rfl, ?_⟩
  rw [update_led_state_trace]
  have hno : ¬(env.stat1_level < 0 ∨ env.stat2_level < 0) := by omega
  simp [update_delta, hno]

/-- Witness for C8 at `env_ok` with write statuses `-5` and `9`. -/
theorem update_ignores_write_status_witness :
    update_led_state { env_ok with set_ret := -5 } s0 =
      update_led_state { env_ok with set_ret := 9 } s0 :=
  (update_ignores_write_status env_ok s0 (-5) 9 (by decide) (by decide)).1

/-- Claim C9: when every configuration and registration step succeeds but
a STAT read during the startup re-evaluation fails, `indicator_led_init`
still returns `0` and that re-evaluation performs no LED write. -/
theorem init_read_error_still_succeeds (env : GpioEnv) (s : DriverState)
    (hok : init_all_ok env) (herr : env.stat1_level < 0 ∨ env.stat2_level < 0) :
    (indicator_led_init env s).1 = 0 ∧
    ledWrites (indicator_led_init env s).2.trace = ledWrites s.trace := by
  rw [indicator_led_init_ok env s hok]
  refine ⟨rfl, ?_⟩
  show ledWrites (s.trace ++ init_success_trace env) = ledWrites s.trace
  rw [ledWrites_append]
  have hz : ledWrites (init_success_trace env) = [] := by
    unfold init_success_trace update_delta
    rw [if_pos herr]
    simp [ledWrites, ledWrites_append]
  rw [hz, List.append_nil]

/-- Witness for C9 at `env_read_error`. -/
theorem init_read_error_still_succeeds_witness :
    (indicator_led_init env_read_error s0).1 = 0 ∧
    ledWrites (indicator_led_init env_read_error s0).2.trace = ledWrites s0.trace :=
  init_read_error_still_succeeds env_read_error s0 (by decide) (by decide)

/-- Claim C10: the STAT1 and STAT2 edge callbacks are behaviourally
equivalent: each performs exactly one re-evaluation on the owning
controller's configuration (appending exactly `update_delta`), the result
ignores the `port`/`pins` arguments, and both callbacks produce the same
state. -/
theorem stat_callbacks_equivalent (d : indicator_led_data) (p1 n1 p2 n2 : Nat)
    (s : DriverState) :
    stat1_gpio_callback p1 d n1 s = update_led_state d.config s ∧
    stat2_gpio_callback p2 d n2 s = update_led_state d.config s ∧
    stat1_gpio_callback p1 d n1 s = stat2_gpio_callback p2 d n2 s ∧
    (stat1_gpio_callback p1 d n1 s).trace = s.trace ++ update_delta d.config :=
  ⟨rfl, rfl, rfl, update_led_state_trace d.config s⟩
